import Mathlib

/-!
Verification of the ESP32 WebSocket echo service (ESP-IDF and Arduino
variants) against its specification.

The ESP-IDF variant's per-request callback `echo_handler` (main.cpp) is
embedded as a pure function from an environment describing the transport's
behaviour during that one invocation (the request method, the result of the
length-probing `httpd_ws_recv_frame` call, the result of the payload-reading
call, and the result of `httpd_ws_send_frame`) together with the current LED
state, to a record of the handler's observable effects: the returned
`esp_err_t`, the frame passed to the send call (if any), the new LED state,
whether the LED was toggled, and whether the handler closed the connection.

The Arduino variant's callback `webSocketEvent` (WebsocketExample.ino) is
embedded likewise, and `connectToWiFi`'s retry loop is embedded as a
structurally recursive function on the remaining retry budget.
-/

/-- The ESP-IDF success code `ESP_OK` (esp_err_t value 0). -/
def ESP_OK : Int := 0

/-- WebSocket frame opcode as reported by `httpd_ws_recv_frame` in the
frame's `type` field (`HTTPD_WS_TYPE_TEXT` or `HTTPD_WS_TYPE_BINARY`). -/
inductive WsOpcode where
  | text
  | binary
  deriving DecidableEq, Repr

/-- Transport-side behaviour during one invocation of `echo_handler`:
the request method, what the two `httpd_ws_recv_frame` calls and the
`httpd_ws_send_frame` call would return, and the pending frame's header
data (opcode and declared payload length) and payload bytes. -/
structure WsEnv where
  methodIsGet : Bool
  probeRet : Int
  frameType : WsOpcode
  frameLen : Nat
  frameData : List Nat
  readRet : Int
  sendRet : Int
  deriving DecidableEq, Repr

/-- The ws frame struct (`httpd_ws_frame_t`) as passed to
`httpd_ws_send_frame`: opcode, declared length, and the payload buffer
(whose size is one more than the declared length in `echo_handler`). -/
structure WsPkt where
  type : WsOpcode
  len : Nat
  payload : List Nat
  deriving DecidableEq, Repr

/-- Observable effects of one `echo_handler` invocation: the returned
`esp_err_t`, the frame passed to `httpd_ws_send_frame` (`none` when the send
call was never reached), the LED state after the call, whether
`gpio_set_level` was invoked with a flipped state, and whether the handler
closed the connection (it never does: `echo_handler` contains no call to any
session-close primitive). -/
structure HandlerResult where
  ret : Int
  sent : Option WsPkt
  led : Bool
  toggled : Bool
  closedConn : Bool
  deriving DecidableEq, Repr

/-- The payload buffer after the second `httpd_ws_recv_frame` call:
`std::vector<uint8_t> buf(ws_pkt.len + 1)` value-initialises every byte to
zero, and the read with `max_len = ws_pkt.len` overwrites at most `len`
leading bytes with the frame's data. -/
def recvFill (len : Nat) (data : List Nat) : List Nat :=
  data.take len ++ List.replicate (len + 1 - min data.length len) 0

/-- Embedding of `echo_handler` from src/Simple/ESP-IDF/main/main.cpp,
lines 41-95. The branch structure mirrors the source: GET requests complete
the handshake and return `ESP_OK`; a failed length probe returns its error;
a zero declared length skips the entire echo/toggle block and returns the
probe's code; a failed payload read returns its error; otherwise the frame
(same opcode and declared length as probed, payload buffer `recvFill`) is
passed to the send call, and only on send success is the static `led_state`
flipped and written with `gpio_set_level`. -/
def echo_handler (env : WsEnv) (led : Bool) : HandlerResult :=
  if env.methodIsGet then
    { ret := ESP_OK, sent := none, led := led, toggled := false, closedConn := false }
  else if env.probeRet ≠ ESP_OK then
    { ret := env.probeRet, sent := none, led := led, toggled := false, closedConn := false }
  else if env.frameLen ≠ 0 then
    if env.readRet ≠ ESP_OK then
      { ret := env.readRet, sent := none, led := led, toggled := false, closedConn := false }
    else
      let pkt : WsPkt :=
        { type := env.frameType, len := env.frameLen,
          payload := recvFill env.frameLen env.frameData }
      if env.sendRet = ESP_OK then
        { ret := ESP_OK, sent := some pkt, led := !led, toggled := true, closedConn := false }
      else
        { ret := env.sendRet, sent := some pkt, led := led, toggled := false, closedConn := false }
  else
    { ret := env.probeRet, sent := none, led := led, toggled := false, closedConn := false }

/-- An invocation of `echo_handler` in which every transport interaction
succeeds on a frame with a non-zero declared length: the environment under
which the source performs a full receive, echo and LED toggle. -/
def SuccessfulEcho (env : WsEnv) : Prop :=
  env.methodIsGet = false ∧ env.probeRet = ESP_OK ∧ env.frameLen ≠ 0 ∧
    env.readRet = ESP_OK ∧ env.sendRet = ESP_OK

instance (env : WsEnv) : Decidable (SuccessfulEcho env) := by
  unfold SuccessfulEcho; infer_instance

/-- LED state after a sequence of `echo_handler` invocations, threading the
static `led_state` variable through the calls. -/
def runLed : List WsEnv → Bool → Bool
  | [], led => led
  | e :: es, led => runLed es (echo_handler e led).led

/-- Arduino `WStype_t` event codes from the WebSockets_Generic library, as
dispatched by `webSocketEvent`. -/
inductive WStype where
  | ERROR
  | DISCONNECTED
  | CONNECTED
  | TEXT
  | BIN
  | FRAGMENT_TEXT_START
  | FRAGMENT_BIN_START
  | FRAGMENT
  | FIN
  | PING
  | PONG
  deriving DecidableEq, Repr

/-- Observable effects of one `webSocketEvent` invocation: the LED state
after the call, the payload passed to `webSocket.sendTXT` (`none` when no
send occurred), and the boolean returned by `sendTXT` (`none` when it was
not called; the source discards this value). -/
structure ArduinoResult where
  ledState : Bool
  sent : Option (List Nat)
  sendSucceeded : Option Bool
  deriving DecidableEq, Repr

/-- Embedding of `webSocketEvent` from
src/Simple/Arduino/WebsocketExample/WebsocketExample.ino, lines 80-112.
Only the `WStype_TEXT` case sends anything or touches `ledState`: it calls
`sendTXT` with the payload, then toggles and writes the LED without
inspecting the send's return value (`sendOk` models that ignored boolean).
`WStype_DISCONNECTED`, `WStype_CONNECTED` and `WStype_ERROR` only log, and
every other event falls to the empty `default:` branch. -/
def webSocketEvent (type : WStype) (payload : List Nat) (length : Nat)
    (sendOk : Bool) (led : Bool) : ArduinoResult :=
  match type with
  | .DISCONNECTED => { ledState := led, sent := none, sendSucceeded := none }
  | .CONNECTED => { ledState := led, sent := none, sendSucceeded := none }
  | .TEXT =>
      { ledState := !led, sent := some (payload.take length), sendSucceeded := some sendOk }
  | .ERROR => { ledState := led, sent := none, sendSucceeded := none }
  | _ => { ledState := led, sent := none, sendSucceeded := none }

/-- LED state after a sequence of `webSocketEvent` invocations, threading
the global `ledState` variable through the calls. Each element of the list
is one event: its type, payload, length and the send call's result. -/
def runArduinoLed : List (WStype × List Nat × Nat × Bool) → Bool → Bool
  | [], led => led
  | (t, p, l, s) :: es, led => runArduinoLed es (webSocketEvent t p l s led).ledState

/-- The `MAX_RETRIES` constant of `connectToWiFi` (WebsocketExample.ino
line 138): the WiFi wait loop polls at most this many times. -/
def MAX_RETRIES : Nat := 20

/-- The retry loop of `connectToWiFi` (WebsocketExample.ino lines 140-144):
`while (WiFi.status() != WL_CONNECTED && retryCount < MAX_RETRIES) { delay;
retryCount++ }`. `statusAt n` models the value of `WiFi.status() ==
WL_CONNECTED` observed at the check with `retryCount = n`; `remaining` is
the invariant quantity `MAX_RETRIES - retryCount`, on which the recursion is
structural, so exhausting it is exactly the `retryCount < MAX_RETRIES`
guard failing. Returns the final `retryCount`. -/
def wifiRetryLoop (statusAt : Nat → Bool) : Nat → Nat → Nat
  | retryCount, 0 => retryCount
  | retryCount, remaining + 1 =>
      if statusAt retryCount then retryCount
      else wifiRetryLoop statusAt (retryCount + 1) remaining

/-- Embedding of `connectToWiFi` (WebsocketExample.ino lines 124-157):
runs the bounded wait loop from `retryCount = 0` and then re-checks the
status once to decide which message to print; returns the loop's final
`retryCount` together with that final connectivity check. The function is
total: the loop is structural recursion on the remaining retry budget. -/
def connectToWiFi (statusAt : Nat → Bool) : Nat × Bool :=
  let final := wifiRetryLoop statusAt 0 MAX_RETRIES
  (final, statusAt final)

/-- Externally visible steps of one `echo_handler` invocation, in program
order: completing the handshake, the length-probing receive call, the
payload-reading receive call, the send call, and the LED toggle. -/
inductive WsStep where
  | handshake
  | recvLen
  | recvPayload
  | sendFrame
  | toggleLed
  deriving DecidableEq, Repr

/-- Whether a step is part of receiving a frame. -/
def isRecvStep : WsStep → Bool
  | .recvLen => true
  | .recvPayload => true
  | _ => false

/-- Whether a step is the send of the echo frame. -/
def isSendStep : WsStep → Bool
  | .sendFrame => true
  | _ => false

/-- The sequence of externally visible steps performed by one
`echo_handler` invocation, following the source's control flow: a GET
request only completes the handshake; otherwise the length probe runs, and
each later step runs only if every earlier one succeeded. -/
def echoTrace (env : WsEnv) : List WsStep :=
  if env.methodIsGet then [.handshake]
  else if env.probeRet ≠ ESP_OK then [.recvLen]
  else if env.frameLen ≠ 0 then
    if env.readRet ≠ ESP_OK then [.recvLen, .recvPayload]
    else if env.sendRet = ESP_OK then [.recvLen, .recvPayload, .sendFrame, .toggleLed]
    else [.recvLen, .recvPayload, .sendFrame]
  else [.recvLen]

/-- The step trace of a connection processing its frames in arrival order:
the HTTP server invokes `echo_handler` once per frame and the invocation for
frame n returns before the invocation for frame n+1 begins, so the traces
concatenate; each step is tagged with the index of the frame it belongs
to. -/
def connTrace : List WsEnv → List (Nat × WsStep)
  | [] => []
  | e :: es =>
      (echoTrace e).map (fun st => (0, st)) ++ (connTrace es).map (fun p => (p.1 + 1, p.2))

/-- Final `retryCount` of the WiFi wait loop never exceeds the starting
count plus the remaining budget. -/
theorem wifiRetryLoop_le (statusAt : Nat → Bool) :
    ∀ remaining retryCount,
      wifiRetryLoop statusAt retryCount remaining ≤ retryCount + remaining := by
  intro remaining
  induction remaining with
  | zero => intro r; simp [wifiRetryLoop]
  | succ n ih =>
      intro r
      unfold wifiRetryLoop
      split
      · omega
      · have h := ih (r + 1)
        omega

/-- When the WiFi never connects, the wait loop exhausts its whole budget. -/
theorem wifiRetryLoop_never (statusAt : Nat → Bool) (h : ∀ n, statusAt n = false) :
    ∀ remaining retryCount,
      wifiRetryLoop statusAt retryCount remaining = retryCount + remaining := by
  intro remaining
  induction remaining with
  | zero => intro r; simp [wifiRetryLoop]
  | succ n ih =>
      intro r
      unfold wifiRetryLoop
      simp [h r, ih (r + 1)]
      omega

/-- C9: the Arduino `connectToWiFi` always terminates: its retry loop runs
at most `MAX_RETRIES` (20) iterations, so the final retry count is at most
20, and when the WiFi never connects the function still returns, having
used all 20 retries and reporting the connection as not established. -/
theorem connectToWiFi_terminates (statusAt : Nat → Bool) :
    (connectToWiFi statusAt).1 ≤ MAX_RETRIES ∧
    ((∀ n, statusAt n = false) → connectToWiFi statusAt = (MAX_RETRIES, false)) := by
  refine ⟨?_, ?_⟩
  · have h := wifiRetryLoop_le statusAt MAX_RETRIES 0
    simpa [connectToWiFi] using h
  · intro h
    have h2 := wifiRetryLoop_never statusAt h MAX_RETRIES 0
    simp [connectToWiFi, h2, h]

/-- Witness for C9: with a status source that never reports a connection,
the function returns after exactly 20 retries with `false`. -/
theorem connectToWiFi_terminates_witness :
    (connectToWiFi (fun _ => false)).1 ≤ MAX_RETRIES ∧
    connectToWiFi (fun _ => false) = (MAX_RETRIES, false) :=
  ⟨(connectToWiFi_terminates (fun _ => false)).1,
   (connectToWiFi_terminates (fun _ => false)).2 (fun _ => rfl)⟩

/-- C6: on a frame decode failure (failed length probe or failed payload
read), `echo_handler` sends no echo frame, performs no LED toggle, returns
the transport's error code to the caller unchanged, and does not close the
connection. -/
theorem decode_failure_no_echo_no_toggle (env : WsEnv) (led : Bool)
    (hget : env.methodIsGet = false) :
    (env.probeRet ≠ ESP_OK →
      echo_handler env led =
        { ret := env.probeRet, sent := none, led := led, toggled := false,
          closedConn := false }) ∧
    (env.probeRet = ESP_OK → env.frameLen ≠ 0 → env.readRet ≠ ESP_OK →
      echo_handler env led =
        { ret := env.readRet, sent := none, led := led, toggled := false,
          closedConn := false }) := by
  constructor
  · intro hp
    unfold echo_handler
    simp [hget, hp]
  · intro hp hl hr
    unfold echo_handler
    simp [hget, hp, hl, hr]

/-- Witness for C6: a failed probe (code -1, `ESP_FAIL`) and a failed
payload read are both returned verbatim with no send, no toggle and no
close. -/
theorem decode_failure_no_echo_no_toggle_witness :
    echo_handler ⟨false, -1, .text, 0, [], 0, 0⟩ false =
      { ret := -1, sent := none, led := false, toggled := false, closedConn := false } ∧
    echo_handler ⟨false, 0, .text, 3, [1, 2, 3], -1, 0⟩ true =
      { ret := -1, sent := none, led := true, toggled := false, closedConn := false } :=
  ⟨(decode_failure_no_echo_no_toggle ⟨false, -1, .text, 0, [], 0, 0⟩ false rfl).1
      (by decide),
   (decode_failure_no_echo_no_toggle ⟨false, 0, .text, 3, [1, 2, 3], -1, 0⟩ true rfl).2
      rfl (by decide) (by decide)⟩

/-- C7: during the handshake step (a GET request in the ESP-IDF variant, a
`WStype_CONNECTED` event in the Arduino variant) no application frame is
sent and no LED toggle occurs; the ESP-IDF handler returns `ESP_OK`. -/
theorem handshake_no_frame_no_toggle (env : WsEnv) (led : Bool)
    (hget : env.methodIsGet = true) (p : List Nat) (l : Nat) (so : Bool) (led2 : Bool) :
    echo_handler env led =
      { ret := ESP_OK, sent := none, led := led, toggled := false, closedConn := false } ∧
    webSocketEvent .CONNECTED p l so led2 =
      { ledState := led2, sent := none, sendSucceeded := none } := by
  constructor
  · unfold echo_handler
    simp [hget]
  · rfl

/-- Witness for C7: a concrete GET request and a concrete connect event
produce no frame and no toggle. -/
theorem handshake_no_frame_no_toggle_witness :
    echo_handler ⟨true, 0, .text, 0, [], 0, 0⟩ false =
      { ret := ESP_OK, sent := none, led := false, toggled := false, closedConn := false } ∧
    webSocketEvent .CONNECTED [47] 1 true true =
      { ledState := true, sent := none, sendSucceeded := none } :=
  handshake_no_frame_no_toggle ⟨true, 0, .text, 0, [], 0, 0⟩ false rfl [47] 1 true true

/-- C10: in the Arduino event handler, every event other than a received
text frame leaves the LED state unchanged and sends nothing back; the LED
is mutated only on the `WStype_TEXT` path. -/
theorem non_text_event_no_led_no_send (t : WStype) (p : List Nat) (l : Nat)
    (so : Bool) (led : Bool) (ht : t ≠ .TEXT) :
    webSocketEvent t p l so led =
      { ledState := led, sent := none, sendSucceeded := none } := by
  cases t <;> first | rfl | exact absurd rfl ht

/-- Witness for C10: a ping event with a payload leaves the LED alone and
sends nothing. -/
theorem non_text_event_no_led_no_send_witness :
    webSocketEvent .PING [1, 2] 2 true true =
      { ledState := true, sent := none, sendSucceeded := none } :=
  non_text_event_no_led_no_send .PING [1, 2] 2 true true (by decide)

/-- Counterexample for C2: a frame whose declared payload length is zero is
silently dropped by `echo_handler` — no echo frame is passed to the send
call and no LED toggle occurs, while the handler reports success — so the
handler does not attempt the Receiving-to-Echoing transition. -/
theorem zero_length_frame_dropped_cex :
    (echo_handler ⟨false, 0, .text, 0, [], 0, 0⟩ false).sent = none ∧
    (echo_handler ⟨false, 0, .text, 0, [], 0, 0⟩ false).toggled = false ∧
    (echo_handler ⟨false, 0, .text, 0, [], 0, 0⟩ false).ret = ESP_OK := by
  decide

/-- C2 (amended): when a received frame's declared payload length is zero,
`echo_handler` skips the echo and the toggle entirely and returns the
probe's success code: the frame is silently dropped. -/
theorem zero_length_frame_dropped (env : WsEnv) (led : Bool)
    (hget : env.methodIsGet = false) (hp : env.probeRet = ESP_OK)
    (hl : env.frameLen = 0) :
    echo_handler env led =
      { ret := ESP_OK, sent := none, led := led, toggled := false, closedConn := false } := by
  unfold echo_handler
  simp [hget, hp, hl]

/-- Witness for the amended C2: a concrete zero-length text frame. -/
theorem zero_length_frame_dropped_witness :
    echo_handler ⟨false, 0, .binary, 0, [], 0, 0⟩ true =
      { ret := ESP_OK, sent := none, led := true, toggled := false, closedConn := false } :=
  zero_length_frame_dropped ⟨false, 0, .binary, 0, [], 0, 0⟩ true rfl rfl rfl

/-- The receive buffer always has the declared length plus one byte of
margin, exactly as allocated by `std::vector<uint8_t> buf(ws_pkt.len + 1)`. -/
theorem recvFill_length (len : Nat) (data : List Nat) :
    (recvFill len data).length = len + 1 := by
  unfold recvFill
  simp
  omega

/-- The margin byte at index `len` of the receive buffer is always zero:
the read overwrites at most `len` leading bytes of the zero-initialised
buffer. -/
theorem recvFill_margin_zero (len : Nat) (data : List Nat) :
    (recvFill len data)[len]? = some 0 := by
  unfold recvFill
  rw [List.getElem?_append_right (by simp)]
  rw [List.getElem?_replicate_of_lt (by simp; omega)]

/-- When the transport delivers exactly the declared number of bytes, the
receive buffer is the payload followed by the single zero margin byte. -/
theorem recvFill_eq_append_zero (len : Nat) (data : List Nat)
    (h : data.length = len) :
    recvFill len data = data ++ [0] := by
  unfold recvFill
  subst h
  have h1 : data.length + 1 - min data.length data.length = 1 := by omega
  simp [h1]

/-- On the success path, `echo_handler` passes to the send call the frame
built from the probed header and the filled buffer, whether or not the send
then succeeds. -/
theorem echo_handler_sent_eq (env : WsEnv) (led : Bool)
    (hget : env.methodIsGet = false) (hp : env.probeRet = ESP_OK)
    (hl : env.frameLen ≠ 0) (hr : env.readRet = ESP_OK) :
    (echo_handler env led).sent =
      some ⟨env.frameType, env.frameLen, recvFill env.frameLen env.frameData⟩ := by
  unfold echo_handler
  simp [hget, hp, hl, hr]
  split <;> rfl

/-- C5: after a successful decode, the frame handed to the send call has
exactly the payload length declared in the probe step, and its buffer is the
declared length plus one, with the trailing margin byte (at index `len`)
deterministically zero because the buffer was zero-initialised before the
read. -/
theorem decode_length_and_margin (env : WsEnv) (led : Bool)
    (hget : env.methodIsGet = false) (hp : env.probeRet = ESP_OK)
    (hl : env.frameLen ≠ 0) (hr : env.readRet = ESP_OK) :
    ∃ pkt : WsPkt,
      (echo_handler env led).sent = some pkt ∧
      pkt.len = env.frameLen ∧
      pkt.payload.length = env.frameLen + 1 ∧
      pkt.payload[env.frameLen]? = some 0 :=
  ⟨⟨env.frameType, env.frameLen, recvFill env.frameLen env.frameData⟩,
   echo_handler_sent_eq env led hget hp hl hr, rfl,
   recvFill_length env.frameLen env.frameData,
   recvFill_margin_zero env.frameLen env.frameData⟩

/-- Witness for C5: a concrete three-byte frame is decoded into a packet of
declared length 3 whose four-byte buffer ends in a zero margin byte. -/
theorem decode_length_and_margin_witness :
    ∃ pkt : WsPkt,
      (echo_handler ⟨false, 0, .text, 3, [10, 20, 30], 0, 0⟩ false).sent = some pkt ∧
      pkt.len = 3 ∧
      pkt.payload.length = 3 + 1 ∧
      pkt.payload[3]? = some 0 :=
  decode_length_and_margin ⟨false, 0, .text, 3, [10, 20, 30], 0, 0⟩ false rfl rfl
    (by decide) rfl

/-- Characterisation of the LED effect of one `echo_handler` invocation:
the toggle happens exactly when the whole receive-echo cycle succeeds, and
only then does the LED state flip. -/
theorem echo_handler_led_effects (env : WsEnv) (led : Bool) :
    ((echo_handler env led).toggled = true ↔ SuccessfulEcho env) ∧
    ((echo_handler env led).led = if SuccessfulEcho env then !led else led) := by
  obtain ⟨mg, pr, ft, fl, fd, rr, sr⟩ := env
  unfold echo_handler SuccessfulEcho
  cases mg
  · by_cases hp : pr = ESP_OK
    · by_cases hl : fl = 0
      · simp [hp, hl]
      · by_cases hr : rr = ESP_OK
        · by_cases hs : sr = ESP_OK
          · simp [hp, hl, hr, hs]
          · simp [hp, hl, hr, hs]
        · simp [hp, hl, hr]
    · simp [hp]
  · simp

/-- Counterexample for C3: in the Arduino variant the send of the echo
frame fails (`sendTXT` returns `false`) and yet the LED still toggles (from
off to on), so the toggle is not gated on send success. -/
theorem toggle_despite_send_failure_cex :
    (webSocketEvent .TEXT [72, 105] 2 false false).sendSucceeded = some false ∧
    (webSocketEvent .TEXT [72, 105] 2 false false).ledState = true := by
  decide

/-- C3 (amended): in the ESP-IDF variant the LED toggle is gated on send
success — it occurs exactly when the probe, read and send all succeed on a
non-empty frame, hence once per successful send, never per receive, and
never when the send fails; in the Arduino variant the toggle occurs once
per received text frame regardless of the send result. -/
theorem toggle_gated_on_send_success (env : WsEnv) (led : Bool)
    (p : List Nat) (l : Nat) (led2 : Bool) :
    ((echo_handler env led).toggled = true ↔ SuccessfulEcho env) ∧
    ((webSocketEvent .TEXT p l false led2).ledState = !led2 ∧
     (webSocketEvent .TEXT p l false led2).sendSucceeded = some false) :=
  ⟨(echo_handler_led_effects env led).1, rfl, rfl⟩

/-- LED state after a run of fully successful echo cycles: it flips once
per cycle, so it ends flipped exactly when the number of cycles is odd. -/
theorem runLed_all_success (envs : List WsEnv) (led : Bool)
    (h : ∀ e ∈ envs, SuccessfulEcho e) :
    runLed envs led = if envs.length % 2 = 1 then !led else led := by
  induction envs generalizing led with
  | nil => simp [runLed]
  | cons e es ih =>
      have he : SuccessfulEcho e := h e (List.mem_cons_self e es)
      have hled : (echo_handler e led).led = !led := by
        rw [(echo_handler_led_effects e led).2, if_pos he]
      rw [runLed, hled, ih (!led) (fun x hx => h x (List.mem_cons_of_mem e hx))]
      by_cases hp : es.length % 2 = 1
      · have h2 : (es.length + 1) % 2 = 0 := by omega
        simp [hp, List.length_cons, h2]
      · have h2 : (es.length + 1) % 2 = 1 := by omega
        simp [hp, List.length_cons, h2]

/-- C4: two consecutive successful echoes return the LED to its pre-toggle
state, and after N successful echoes from the initial off state the LED's
binary value equals N mod 2. -/
theorem actuator_state_mod_two (envs : List WsEnv) (e1 e2 : WsEnv) (led : Bool)
    (h : ∀ e ∈ envs, SuccessfulEcho e)
    (h1 : SuccessfulEcho e1) (h2 : SuccessfulEcho e2) :
    runLed [e1, e2] led = led ∧
    ((if runLed envs false then 1 else 0 : Nat) = envs.length % 2) := by
  constructor
  · have hpair := runLed_all_success [e1, e2] led (by
      intro x hx
      simp only [List.mem_cons, List.not_mem_nil, or_false] at hx
      rcases hx with rfl | rfl
      · exact h1
      · exact h2)
    simpa using hpair
  · rw [runLed_all_success envs false h]
    by_cases hp : envs.length % 2 = 1
    · simp [hp]
    · simp [hp]
      omega

/-- Witness for C4: three concrete fully successful echo cycles starting
from the off state leave the LED on (3 mod 2 = 1), and a pair of cycles
returns it to its starting state. -/
theorem actuator_state_mod_two_witness :
    runLed [⟨false, 0, .text, 1, [65], 0, 0⟩, ⟨false, 0, .text, 1, [65], 0, 0⟩] true = true ∧
    ((if runLed [⟨false, 0, .text, 1, [65], 0, 0⟩, ⟨false, 0, .text, 1, [65], 0, 0⟩,
        ⟨false, 0, .text, 1, [65], 0, 0⟩] false then 1 else 0 : Nat) = 3 % 2) :=
  actuator_state_mod_two
    [⟨false, 0, .text, 1, [65], 0, 0⟩, ⟨false, 0, .text, 1, [65], 0, 0⟩,
      ⟨false, 0, .text, 1, [65], 0, 0⟩]
    ⟨false, 0, .text, 1, [65], 0, 0⟩ ⟨false, 0, .text, 1, [65], 0, 0⟩ true
    (by decide) (by decide) (by decide)

/-- Counterexample for C1: the Arduino variant drops a valid binary frame
(the spec scenario's nine bytes spelling "Message 2") — nothing is sent back
and the LED is untouched — and the ESP-IDF variant drops a valid
zero-length frame the same way, so not every valid frame is echoed with one
toggle. -/
theorem echo_identical_frame_cex :
    (webSocketEvent .BIN [77, 101, 115, 115, 97, 103, 101, 32, 50] 9 true false).sent = none ∧
    (webSocketEvent .BIN [77, 101, 115, 115, 97, 103, 101, 32, 50] 9 true false).ledState
      = false ∧
    (echo_handler ⟨false, 0, .binary, 0, [], 0, 0⟩ true).sent = none ∧
    (echo_handler ⟨false, 0, .binary, 0, [], 0, 0⟩ true).toggled = false := by
  decide

/-- C1 (amended): for every valid frame with a non-empty payload whose
transport read and echo send succeed, the ESP-IDF handler passes to the
send call a frame with the same opcode as the received frame and whose
first `len` bytes are exactly the received payload, and exactly one LED
toggle occurs before the handler returns; the Arduino variant does the same
only for text frames. -/
theorem echo_identical_frame (env : WsEnv) (led : Bool) (p : List Nat)
    (so : Bool) (led2 : Bool)
    (hget : env.methodIsGet = false) (hp : env.probeRet = ESP_OK)
    (hl : env.frameLen ≠ 0) (hr : env.readRet = ESP_OK) (hs : env.sendRet = ESP_OK)
    (hd : env.frameData.length = env.frameLen) :
    (∃ pkt : WsPkt,
      (echo_handler env led).sent = some pkt ∧
      pkt.type = env.frameType ∧
      pkt.len = env.frameLen ∧
      pkt.payload.take pkt.len = env.frameData ∧
      (echo_handler env led).toggled = true ∧
      (echo_handler env led).led = !led ∧
      (echo_handler env led).ret = ESP_OK) ∧
    ((webSocketEvent .TEXT p p.length so led2).sent = some p ∧
     (webSocketEvent .TEXT p p.length so led2).ledState = !led2) := by
  have hres : echo_handler env led =
      { ret := ESP_OK,
        sent := some ⟨env.frameType, env.frameLen, recvFill env.frameLen env.frameData⟩,
        led := !led, toggled := true, closedConn := false } := by
    unfold echo_handler
    simp [hget, hp, hl, hr, hs]
  refine ⟨⟨⟨env.frameType, env.frameLen, recvFill env.frameLen env.frameData⟩,
    ?_, rfl, rfl, ?_, ?_, ?_, ?_⟩, ?_, ?_⟩
  · rw [hres]
  · rw [recvFill_eq_append_zero env.frameLen env.frameData hd]
    rw [← hd]
    exact List.take_left env.frameData [0]
  · rw [hres]
  · rw [hres]
  · rw [hres]
  · simp [webSocketEvent]
  · rfl

/-- Witness for the amended C1: the spec scenario — the text frame
"Message 1" is echoed byte-for-byte as text with one toggle from off to on
in the ESP-IDF variant, and the Arduino variant echoes the same text
payload while toggling its LED. -/
theorem echo_identical_frame_witness :
    (∃ pkt : WsPkt,
      (echo_handler ⟨false, 0, .text, 9, [77, 101, 115, 115, 97, 103, 101, 32, 49], 0, 0⟩
          false).sent = some pkt ∧
      pkt.type = WsOpcode.text ∧
      pkt.len = 9 ∧
      pkt.payload.take pkt.len = [77, 101, 115, 115, 97, 103, 101, 32, 49] ∧
      (echo_handler ⟨false, 0, .text, 9, [77, 101, 115, 115, 97, 103, 101, 32, 49], 0, 0⟩
          false).toggled = true ∧
      (echo_handler ⟨false, 0, .text, 9, [77, 101, 115, 115, 97, 103, 101, 32, 49], 0, 0⟩
          false).led = !false ∧
      (echo_handler ⟨false, 0, .text, 9, [77, 101, 115, 115, 97, 103, 101, 32, 49], 0, 0⟩
          false).ret = ESP_OK) ∧
    ((webSocketEvent .TEXT [77, 101, 115, 115, 97, 103, 101, 32, 49]
        [77, 101, 115, 115, 97, 103, 101, 32, 49].length true false).sent
      = some [77, 101, 115, 115, 97, 103, 101, 32, 49] ∧
     (webSocketEvent .TEXT [77, 101, 115, 115, 97, 103, 101, 32, 49]
        [77, 101, 115, 115, 97, 103, 101, 32, 49].length true false).ledState = !false) :=
  echo_identical_frame ⟨false, 0, .text, 9, [77, 101, 115, 115, 97, 103, 101, 32, 49], 0, 0⟩
    false [77, 101, 115, 115, 97, 103, 101, 32, 49] true false
    rfl rfl (by decide) rfl rfl rfl

/-- Any list is pairwise related by a relation that holds everywhere. -/
theorem pairwise_of_total {α : Type} {R : α → α → Prop} (h : ∀ a b, R a b) :
    ∀ l : List α, l.Pairwise R
  | [] => List.Pairwise.nil
  | a :: l => List.Pairwise.cons (fun b _ => h a b) (pairwise_of_total h l)

/-- Within one `echo_handler` invocation the receive steps strictly precede
the send step: no trace of the handler has a send step followed by a
receive step. -/
theorem echoTrace_recv_before_send (env : WsEnv) :
    (echoTrace env).Pairwise (fun a b => isSendStep a = true → isRecvStep b = false) := by
  unfold echoTrace
  repeat' split
  all_goals decide

/-- The frame tags along a connection's trace are monotone: every step of
frame n appears before every step of frame n+1, so the handler never
interleaves two frames of one connection. -/
theorem connTrace_monotone (envs : List WsEnv) :
    (connTrace envs).Pairwise (fun a b => a.1 ≤ b.1) := by
  induction envs with
  | nil => exact List.Pairwise.nil
  | cons e es ih =>
      rw [connTrace, List.pairwise_append]
      refine ⟨?_, ?_, ?_⟩
      · exact List.pairwise_map.mpr (pairwise_of_total (fun a b => Nat.le_refl 0) _)
      · exact List.pairwise_map.mpr (ih.imp (fun h => Nat.succ_le_succ h))
      · intro a ha b hb
        obtain ⟨x, _, rfl⟩ := List.mem_map.mp ha
        exact Nat.zero_le _

/-- C8: frames of one connection are processed strictly in arrival order —
in the connection trace every step of an earlier frame precedes every step
of a later frame (the echo or failure of frame N completes before the
receive of frame N+1 begins), and within one handler invocation the receive
of a frame strictly precedes its send. -/
theorem frames_processed_in_order (envs : List WsEnv) (env : WsEnv) :
    (connTrace envs).Pairwise (fun a b => a.1 ≤ b.1) ∧
    (echoTrace env).Pairwise (fun a b => isSendStep a = true → isRecvStep b = false) :=
  ⟨connTrace_monotone envs, echoTrace_recv_before_send env⟩
